import Mathlib

/-!
Verification of `src/Source/Kernel/boot.cpp` (the whole repository's code):

```
int main() {
    printf("Hello from Nyx OS!\n");
    Py_Initialize();
    PyRun_SimpleString("print('Hello from Embedded Python')");
    PyRun_SimpleString("import sys\nprint(sys.version)");
    Py_Finalize();
    return 0;
}
```

The embedding records, for one run of the process, the text written to
standard output, the ordered trace of library calls, and the exit code.
The embedded CPython runtime is external to the repository, so its
behaviour is a parameter: the status each call would report and the text
each executed source string writes to standard output.
-/

namespace Nyx

/-- One externally observable library effect issued by `main`. -/
inductive Effect where
  | printf (s : String)
  | pyInitialize
  | pyRunSimpleString (src : String)
  | pyFinalize
  deriving DecidableEq, Repr

/-- Behaviour of the external embedded runtime, as seen by this program:
`initStatus` and `finalizeStatus` are whatever status initialization and
finalization would report, `runResult` is the integer `PyRun_SimpleString`
returns for a source string, and `output` is the text executing that
source string writes to standard output. All of it belongs to the
external dependency, not to this repository. -/
structure LibBehavior where
  initStatus : Int
  runResult : String → Int
  finalizeStatus : Int
  output : String → String

/-- Observable outcome of one process run. -/
structure RunResult where
  stdout : String
  trace : List Effect
  exitCode : Int
  deriving Repr

/-- The string literal of line 5 of `boot.cpp`. -/
def greeting : String := "Hello from Nyx OS!\n"

/-- The string literal of line 7 of `boot.cpp`. -/
def pySource1 : String := "print('Hello from Embedded Python')"

/-- The string literal of line 8 of `boot.cpp`. -/
def pySource2 : String := "import sys\nprint(sys.version)"

/-- Shallow embedding of `main`, one step per C statement. The statuses
the runtime reports are bound and then ignored, exactly as the C code
ignores every return value. -/
def mainRun (lib : LibBehavior) : RunResult :=
  -- printf of the greeting
  let out1 := greeting
  -- Py_Initialize, status unchecked
  let _s0 := lib.initStatus
  -- first PyRun_SimpleString, result unchecked
  let _r1 := lib.runResult pySource1
  let out2 := out1 ++ lib.output pySource1
  -- second PyRun_SimpleString, result unchecked
  let _r2 := lib.runResult pySource2
  let out3 := out2 ++ lib.output pySource2
  -- Py_Finalize, status unchecked
  let _s1 := lib.finalizeStatus
  -- return 0
  { stdout := out3,
    trace := [Effect.printf greeting, Effect.pyInitialize,
              Effect.pyRunSimpleString pySource1,
              Effect.pyRunSimpleString pySource2,
              Effect.pyFinalize],
    exitCode := 0 }

/-- The ambient input a process run could observe: command-line
arguments, environment variables and standard input. `main()` takes no
parameters and reads none of these, so the embedding of a whole run
ignores this record. -/
structure ProcessInput where
  args : List String
  env : List (String × String)
  stdin : String

/-- A whole process run on a given input: `main` consults no part of the
input, so the run is `mainRun` of the runtime behaviour alone. -/
def runProgram (_i : ProcessInput) (lib : LibBehavior) : RunResult :=
  mainRun lib

/-- The source strings submitted to the interpreter during a run, in
order of submission. -/
def pyRunCalls (lib : LibBehavior) : List String :=
  (mainRun lib).trace.filterMap fun e =>
    match e with
    | Effect.pyRunSimpleString s => some s
    | _ => none

/-- A concrete runtime behaviour, used to evaluate the embedding at a
specific point. -/
def libTest : LibBehavior :=
  { initStatus := 0,
    runResult := fun _ => 0,
    finalizeStatus := 0,
    output := fun s => s ++ "\n" }

/-- String concatenation is associative. -/
theorem string_append_assoc (a b c : String) :
    (a ++ b) ++ c = a ++ (b ++ c) :=
  String.append_assoc a b c

/-- C1: every run writes the greeting line to standard output first,
followed by the output the embedded interpreter produces for the two
submitted statements (a second greeting and then a runtime version
string), and the process exit code is 0 (success). -/
theorem c1_output_and_exit (lib : LibBehavior) :
    (mainRun lib).stdout
      = greeting ++ (lib.output pySource1 ++ lib.output pySource2)
    ∧ (mainRun lib).exitCode = 0 :=
  ⟨string_append_assoc greeting (lib.output pySource1) (lib.output pySource2),
   rfl⟩

/-- C2: every run performs exactly the linear sequence of library
effects, in this order and with no branching: print the greeting,
initialize the interpreter, execute the two fixed source strings,
finalize the interpreter; the trace holds nothing else. -/
theorem c2_linear_effect_sequence (lib : LibBehavior) :
    (mainRun lib).trace
      = [Effect.printf greeting, Effect.pyInitialize,
         Effect.pyRunSimpleString pySource1,
         Effect.pyRunSimpleString pySource2,
         Effect.pyFinalize] := rfl

/-- C3: in every run, each execute-source-string call happens strictly
after the initialization effect and strictly before the finalization
effect, and every finalization effect in the trace comes after it, so
the interpreter is never used after finalization. -/
theorem c3_init_before_use_before_finalize (lib : LibBehavior)
    (k : Nat) (src : String)
    (hk : ((mainRun lib).trace).get? k
            = some (Effect.pyRunSimpleString src)) :
    (∃ i, i < k ∧ ((mainRun lib).trace).get? i = some Effect.pyInitialize)
    ∧ (∃ j, k < j ∧ ((mainRun lib).trace).get? j = some Effect.pyFinalize)
    ∧ (∀ j, ((mainRun lib).trace).get? j = some Effect.pyFinalize → k < j) := by
  have hlen : k < 5 := by
    by_contra h
    push_neg at h
    have : ((mainRun lib).trace).get? k = none := by
      apply List.get?_eq_none.mpr
      simpa [mainRun] using h
    rw [this] at hk
    exact Option.noConfusion hk
  interval_cases k
  · exact absurd hk (by simp [mainRun, List.get?])
  · exact absurd hk (by simp [mainRun, List.get?])
  · refine ⟨⟨1, by omega, rfl⟩, ⟨4, by omega, rfl⟩, ?_⟩
    intro j hj
    have hj5 : j < 5 := by
      by_contra h
      push_neg at h
      have : ((mainRun lib).trace).get? j = none := by
        apply List.get?_eq_none.mpr
        simpa [mainRun] using h
      rw [this] at hj
      exact Option.noConfusion hj
    interval_cases j <;> simp_all [mainRun, List.get?]
  · refine ⟨⟨1, by omega, rfl⟩, ⟨4, by omega, rfl⟩, ?_⟩
    intro j hj
    have hj5 : j < 5 := by
      by_contra h
      push_neg at h
      have : ((mainRun lib).trace).get? j = none := by
        apply List.get?_eq_none.mpr
        simpa [mainRun] using h
      rw [this] at hj
      exact Option.noConfusion hj
    interval_cases j <;> simp_all [mainRun, List.get?]
  · exact absurd hk (by simp [mainRun, List.get?])

/-- Witness for C3 at the first execute-source-string call (index 2 of
the trace), with the concrete runtime behaviour `libTest`. -/
theorem c3_init_before_use_before_finalize_witness :
    (∃ i, i < 2 ∧ ((mainRun libTest).trace).get? i = some Effect.pyInitialize)
    ∧ (∃ j, 2 < j ∧ ((mainRun libTest).trace).get? j = some Effect.pyFinalize)
    ∧ (∀ j, ((mainRun libTest).trace).get? j = some Effect.pyFinalize → 2 < j) :=
  c3_init_before_use_before_finalize libTest 2 pySource1 rfl

/-- C4: no failure is distinguished from success: two runtime behaviours
that write the same output but report arbitrarily different statuses for
initialization, for both executions and for finalization yield the very
same run result, and the exit code is 0 regardless. -/
theorem c4_statuses_unchecked (lib lib' : LibBehavior)
    (h : lib.output = lib'.output) :
    mainRun lib = mainRun lib' ∧ (mainRun lib).exitCode = 0 := by
  constructor
  · simp [mainRun, h]
  · rfl

/-- Witness for C4: behaviours reporting status 0 everywhere and status
-1 everywhere, with the same output function. -/
theorem c4_statuses_unchecked_witness :
    mainRun libTest
      = mainRun { initStatus := -1, runResult := fun _ => -1,
                  finalizeStatus := -1, output := libTest.output }
    ∧ (mainRun libTest).exitCode = 0 :=
  c4_statuses_unchecked libTest
    { initStatus := -1, runResult := fun _ => -1,
      finalizeStatus := -1, output := libTest.output } rfl

/-- C5: exactly two source strings are submitted to the interpreter per
run, and they are the fixed compile-time constants of lines 7 and 8,
independent of anything. -/
theorem c5_exactly_two_fixed_statements (lib : LibBehavior) :
    (pyRunCalls lib).length = 2
    ∧ pyRunCalls lib = [pySource1, pySource2] := ⟨rfl, rfl⟩

/-- C6: `main` is deterministic: any two runs with the same runtime
behaviour produce the identical call trace and the identical exit
code. -/
theorem c6_deterministic (lib : LibBehavior) (r₁ r₂ : RunResult)
    (h₁ : mainRun lib = r₁) (h₂ : mainRun lib = r₂) :
    r₁.trace = r₂.trace ∧ r₁.exitCode = r₂.exitCode := by
  subst h₁; subst h₂; exact ⟨rfl, rfl⟩

/-- Witness for C6 at the concrete behaviour `libTest`. -/
theorem c6_deterministic_witness :
    (mainRun libTest).trace = (mainRun libTest).trace
    ∧ (mainRun libTest).exitCode = (mainRun libTest).exitCode :=
  c6_deterministic libTest (mainRun libTest) (mainRun libTest) rfl rfl

/-- C7: every run terminates: the embedding of `main` is a total
straight-line function, the trace it reaches is the full five-effect
sequence ending in finalization, and the return statement is reached
with exit code 0. -/
theorem c7_terminates (lib : LibBehavior) :
    (mainRun lib).trace.length = 5
    ∧ (mainRun lib).trace.getLast? = some Effect.pyFinalize
    ∧ (mainRun lib).exitCode = 0 := ⟨rfl, rfl, rfl⟩

/-- C8: the first thing written to standard output is exactly the text
of the greeting string literal, newline included: the whole output is
that literal followed by a remainder. -/
theorem c8_first_line (lib : LibBehavior) :
    greeting = "Hello from Nyx OS!\n"
    ∧ ∃ rest, (mainRun lib).stdout = "Hello from Nyx OS!\n" ++ rest :=
  ⟨rfl, lib.output pySource1 ++ lib.output pySource2,
   string_append_assoc greeting (lib.output pySource1) (lib.output pySource2)⟩

/-- C9: the two interpreter statements are, in order, exactly these two
source strings; the second is one two-line source string, so only two
submissions occur. -/
theorem c9_exact_statement_strings (lib : LibBehavior) :
    pyRunCalls lib
      = ["print('Hello from Embedded Python')",
         "import sys\nprint(sys.version)"] := rfl

/-- C10: the observable behaviour is independent of all program input:
for any two inputs (arguments, environment, standard input) and the same
runtime behaviour, the run results are identical. -/
theorem c10_input_noninterference (i₁ i₂ : ProcessInput)
    (lib : LibBehavior) :
    runProgram i₁ lib = runProgram i₂ lib := rfl

end Nyx
